import Mathlib

/-!
Verification of the hello-gpt-notes core against its specification.

The repository has two thin layers:
* the proxy endpoint `GET` handler in `app/api/hello/route.js`, which makes
  one outbound call to the external chat-completion service and normalizes
  the result into a small JSON envelope; and
* the client view's `onSubmit` handler in `app/page.js` (quoted in full in
  `PAGE_JS_GUIDE.md`), which calls the proxy endpoint and updates the two
  display-state flags `reply` and `loadingStatus`.

Both are embedded shallowly below: JavaScript values are the inductive
`JSVal` (JSON extended with `undefined`), property access and the other
throwing operations return `Except`, and each handler is a total function
from the outcome of its one awaited call to its observable result.
-/

namespace HelloGptNotes

/-- JavaScript values as the two handlers see them: JSON data extended with
`undefined`, which is what property access on a missing key produces.
Objects are association lists keyed by field name. -/
inductive JSVal where
  | undefined : JSVal
  | null : JSVal
  | bool : Bool → JSVal
  | num : Int → JSVal
  | str : String → JSVal
  | arr : List JSVal → JSVal
  | obj : List (String × JSVal) → JSVal
deriving Repr

/-- Property access `v.k` (as in `createChatCompletionResBody.choices` or
`body.error.message`): throws a TypeError when the receiver is `undefined`
or `null`; on an object it yields the field's value, or `undefined` when
the key is absent; on any other value it yields `undefined`. -/
def getProp : JSVal → String → Except Unit JSVal
  | .undefined, _ => .error ()
  | .null, _ => .error ()
  | .obj fs, k => .ok ((fs.lookup k).getD .undefined)
  | _, _ => .ok .undefined

/-- Index access `v[i]` (as in `choices[0]`): throws a TypeError when the
receiver is `undefined` or `null`; on an array it yields the element, or
`undefined` out of range; on any other value it yields `undefined`. -/
def getIdx : JSVal → Nat → Except Unit JSVal
  | .undefined, _ => .error ()
  | .null, _ => .error ()
  | .arr xs, i => .ok (xs.getD i .undefined)
  | _, _ => .ok .undefined

/-- `String.prototype.trim`: removes leading and trailing whitespace. -/
def jsTrim (s : String) : String :=
  String.mk (((s.data.dropWhile Char.isWhitespace).reverse.dropWhile
    Char.isWhitespace).reverse)

/-- The method call `v.trim()` (as in `...message.content.trim()`): on a
string it trims surrounding whitespace; on any other receiver the callee
is missing (or the receiver is `undefined`/`null`) and a TypeError is
thrown. -/
def callTrim : JSVal → Except Unit String
  | .str s => .ok (jsTrim s)
  | _ => .error ()

/-- Outcome of one awaited `fetch` plus the subsequent `res.json()`, the
two steps of either handler's single outbound call: the fetch itself may
reject, the body parse may throw after a status was received, or both
succeed, giving an HTTP status and a parsed body. -/
inductive CallOutcome where
  | fetchThrow : CallOutcome
  | jsonThrow : Nat → CallOutcome
  | ok : Nat → JSVal → CallOutcome

/-- A value handed to the `Response` constructor's `status` option: the
route code passes either a number (`200`, or `error.statusCode`) or the
string literal `"500"`. -/
inductive StatusInit where
  | num : Nat → StatusInit
  | str : String → StatusInit

/-- `error.statusCode || "500"` in the catch block: JavaScript `||` takes
the right operand exactly when the left is falsy, i.e. when `statusCode`
is `undefined` (no upstream status was attached to the thrown error) or
the number `0`. -/
def statusOrDefault : Option Nat → StatusInit
  | none => .str "500"
  | some s => if s = 0 then .str "500" else .num s

/-- Decimal digit parsing used to model WebIDL's ToNumber on the digit
strings this code passes to the `Response` constructor. -/
def parseDigits : List Char → Nat → Option Nat
  | [], acc => some acc
  | c :: cs, acc =>
    if c.isDigit then parseDigits cs (acc * 10 + (c.toNat - 48)) else none

/-- The `Response` constructor's conversion of its `status` option to the
HTTP status actually carried by the response: a number is used as is, and
a digit string such as `"500"` is converted by WebIDL's ToNumber to the
number it spells (a non-numeric string would convert to 0). -/
def normalizeStatus : StatusInit → Nat
  | .num n => n
  | .str s =>
    match s.data with
    | [] => some 0 |>.getD 0
    | cs => (parseDigits cs 0).getD 0

/-- An HTTP response as the caller observes it: the (normalized, numeric)
status and the JSON body. -/
structure HttpResponse where
  status : Nat
  body : JSVal
deriving Repr

/-- The generic error body
`{ error: { message: "An error has occurred" } }` returned by the route's
catch block. -/
def genericErrorBody : JSVal :=
  .obj [("error", .obj [("message", .str "An error has occurred")])]

/-- The headers of the outbound request to the completion service,
including the credential:
`Authorization: "Bearer " + process.env.OPENAI_API_KEY`. -/
def outboundHeaders (apiKey : String) : List (String × String) :=
  [("Content-Type", "application/json"),
   ("Authorization", "Bearer " ++ apiKey)]

/-- The untrimmed `createChatCompletionResBody.choices[0].message.content`
access chain of the route's success path; any step may throw. -/
def rawContent (body : JSVal) : Except Unit JSVal :=
  match getProp body "choices" with
  | .error e => .error e
  | .ok choices =>
    match getIdx choices 0 with
    | .error e => .error e
    | .ok first =>
      match getProp first "message" with
      | .error e => .error e
      | .ok message => getProp message "content"

/-- `createChatCompletionResBody.choices[0].message.content.trim()`:
the extraction of the completion text on the route's success path. -/
def extractCompletion (body : JSVal) : Except Unit String :=
  match rawContent body with
  | .error e => .error e
  | .ok content => callTrim content

/-- The dereferences performed by the success log line, still inside the
`try` block: `createChatCompletionResBody.usage` and then
`usage.prompt_tokens`, `usage.completion_tokens`, `usage.total_tokens`.
A throw here (only possible when `usage` is `undefined` or `null`)
diverts the handler into the catch path. -/
def logUsage (body : JSVal) : Except Unit Unit :=
  match getProp body "usage" with
  | .error e => .error e
  | .ok usage =>
    match getProp usage "prompt_tokens" with
    | .error e => .error e
    | .ok _ =>
      match getProp usage "completion_tokens" with
      | .error e => .error e
      | .ok _ =>
        match getProp usage "total_tokens" with
        | .error e => .error e
        | .ok _ => .ok ()

/-- The response built by the route's catch block: generic body, and
status `error.statusCode || "500"` as normalized by the `Response`
constructor. `statusCode` is the upstream status when the non-200 branch
threw the error, and `undefined` (`none`) when fetch rejected, the body
parse threw, or a property access on the success path threw. -/
def catchResponse (statusCode : Option Nat) : HttpResponse :=
  { status := normalizeStatus (statusOrDefault statusCode),
    body := genericErrorBody }

/-- The `GET` handler of `app/api/hello/route.js`, as a function of the
outcome of its one outbound call. The `try` block awaits the fetch and
the body parse, throws an error carrying the upstream status when that
status is not 200, extracts and trims `choices[0].message.content`,
dereferences the usage counters for the log line, and returns 200 with
`{ completion: <text> }`; every throw lands in the catch block, which
answers with the generic body. -/
def routeGET (upstream : CallOutcome) : HttpResponse :=
  match upstream with
  | .fetchThrow => catchResponse none
  | .jsonThrow _ => catchResponse none
  | .ok upstreamStatus body =>
    if upstreamStatus ≠ 200 then
      catchResponse (some upstreamStatus)
    else
      match extractCompletion body with
      | .error _ => catchResponse none
      | .ok completionText =>
        match logUsage body with
        | .error _ => catchResponse none
        | .ok _ =>
          { status := 200, body := .obj [("completion", .str completionText)] }

/-- One full run of the route handler for a given credential: the
outbound request headers it sends (the only place the credential flows)
together with the response it returns. -/
structure RouteRun where
  requestHeaders : List (String × String)
  response : HttpResponse

/-- The route handler with its credential: `process.env.OPENAI_API_KEY`
is read and placed in the outbound `Authorization` header; the response
is computed by `routeGET` from the upstream outcome alone. -/
def routeRun (apiKey : String) (upstream : CallOutcome) : RouteRun :=
  { requestHeaders := outboundHeaders apiKey,
    response := routeGET upstream }

/-- A well-formed upstream success body in the sense of the external
interface contract: `choices[0].message.content` is reachable and is a
string, and `usage` carries the three numeric token counters. -/
def wellFormedBody (body : JSVal) : Bool :=
  (match rawContent body with
   | .ok (.str _) => true
   | _ => false)
  && (match getProp body "usage" with
      | .ok usage =>
        (match getProp usage "prompt_tokens" with
         | .ok (.num _) => true
         | _ => false)
        && (match getProp usage "completion_tokens" with
            | .ok (.num _) => true
            | _ => false)
        && (match getProp usage "total_tokens" with
            | .ok (.num _) => true
            | _ => false)
      | .error _ => false)

/-- The client view's display state: the `reply` text and the
`loadingStatus` flag of `app/page.js`. -/
structure DisplayState where
  reply : JSVal
  loadingStatus : Bool
deriving Repr

/-- The initial display state: `useState("")` and `useState(false)`. -/
def initialState : DisplayState :=
  { reply := .str "", loadingStatus := false }

/-- The ternary of the client's `try` block:
`response.status === 200 ? body.completion : body.error.message`.
Either property-access chain may throw; a throw is caught by the
handler's `catch`. -/
def chosenReply (status : Nat) (body : JSVal) : Except Unit JSVal :=
  if status = 200 then
    getProp body "completion"
  else
    match getProp body "error" with
    | .error e => .error e
    | .ok err => getProp err "message"

/-- The `onSubmit` handler of `app/page.js` (quoted in
`PAGE_JS_GUIDE.md`): sets `loadingStatus` true, awaits
`fetch("/api/hello")` and `response.json()`, sets `reply` from the
ternary, or to `"An error has occurred"` when anything in the `try`
block throws, and finally sets `loadingStatus` false. The function
returns the display state after the handler finishes. -/
def onSubmit (outcome : CallOutcome) : DisplayState :=
  match outcome with
  | .fetchThrow => { reply := .str "An error has occurred", loadingStatus := false }
  | .jsonThrow _ => { reply := .str "An error has occurred", loadingStatus := false }
  | .ok status body =>
    match chosenReply status body with
    | .error _ => { reply := .str "An error has occurred", loadingStatus := false }
    | .ok v => { reply := v, loadingStatus := false }

/-- Concrete well-formed upstream success body used as the Scenario A
witness: content `"  Hi there!  "` and the three usage counters. -/
def scenarioABody : JSVal :=
  .obj [("choices", .arr [.obj [("message", .obj [("content", .str "  Hi there!  ")])]]),
        ("usage", .obj [("prompt_tokens", .num 5), ("completion_tokens", .num 7),
                        ("total_tokens", .num 12)])]

/-- A 200 body whose completion is present and whose `usage` field is an
object carrying none of the three token counters. -/
def usageWithoutCounters : JSVal :=
  .obj [("choices", .arr [.obj [("message", .obj [("content", .str "Hi there!")])]]),
        ("usage", .obj [])]

/-- A 200 body whose completion is present but which has no `usage`
field at all. -/
def successBodyNoUsage : JSVal :=
  .obj [("choices", .arr [.obj [("message", .obj [("content", .str "Hi there!")])]])]

/-- A non-200 response body whose `error` field is present but carries
no `message`. -/
def errorWithoutMessage : JSVal :=
  .obj [("error", .obj [])]

/-- The catch block's response when the thrown error carried no upstream
status: the string `"500"` normalizes to the numeric HTTP status 500. -/
theorem catchResponse_none :
    catchResponse none = { status := 500, body := genericErrorBody } := rfl

/-- A well-formed body's usage dereferences all succeed, so the success
log line does not throw. -/
theorem logUsage_ok_of_wellFormed (body : JSVal)
    (hwf : wellFormedBody body = true) : logUsage body = .ok () := by
  unfold wellFormedBody at hwf
  unfold logUsage
  cases hu : getProp body "usage" with
  | error e => simp [hu] at hwf
  | ok usage =>
    simp only [hu] at hwf ⊢
    cases hp : getProp usage "prompt_tokens" with
    | error e => simp [hp] at hwf
    | ok vp =>
      simp only [hp] at hwf ⊢
      cases hc : getProp usage "completion_tokens" with
      | error e => simp [hc] at hwf
      | ok vc =>
        simp only [hc] at hwf ⊢
        cases ht : getProp usage "total_tokens" with
        | error e => simp [ht] at hwf
        | ok vt => simp [ht]

/-- Claim C1: when the outbound call returns status 200 with a
well-formed body, the handler returns status 200 with body
`{ completion: t }` where `t` is the body's
`choices[0].message.content` with surrounding whitespace trimmed. -/
theorem routeGET_success_trimmed (body : JSVal) (c : String)
    (hwf : wellFormedBody body = true)
    (hc : rawContent body = .ok (.str c)) :
    routeGET (.ok 200 body)
      = { status := 200, body := .obj [("completion", .str (jsTrim c))] } := by
  have hlog : logUsage body = Except.ok () := logUsage_ok_of_wellFormed body hwf
  have hext : extractCompletion body = Except.ok (jsTrim c) := by
    unfold extractCompletion
    rw [hc]
    rfl
  simp [routeGET, hext, hlog]

/-- Witness for C1, Scenario A: upstream content `"  Hi there!  "`
yields `200 { completion: "Hi there!" }`. -/
theorem routeGET_success_trimmed_witness :
    wellFormedBody scenarioABody = true
    ∧ rawContent scenarioABody = .ok (.str "  Hi there!  ")
    ∧ routeGET (.ok 200 scenarioABody)
        = { status := 200, body := .obj [("completion", .str "Hi there!")] } :=
  ⟨rfl, rfl, routeGET_success_trimmed scenarioABody "  Hi there!  " rfl rfl⟩

/-- Claim C2: when the outbound call returns a non-200 status S, the
handler returns status S with the generic body
`{ error: { message: "An error has occurred" } }`, never the upstream
message. (S is a status an HTTP exchange can actually report, so
nonzero; the catch block computes `error.statusCode || "500"`.) -/
theorem routeGET_non200 (s : Nat) (body : JSVal)
    (hs : s ≠ 200) (h0 : s ≠ 0) :
    routeGET (.ok s body) = { status := s, body := genericErrorBody } := by
  simp [routeGET, catchResponse, statusOrDefault, normalizeStatus, hs, h0]

/-- Witness for C2, Scenario B: upstream 429 with body
`{ error: "rate limited" }` yields 429 with the generic body. -/
theorem routeGET_non200_witness :
    ((429 : Nat) ≠ 200) ∧ ((429 : Nat) ≠ 0)
    ∧ routeGET (.ok 429 (.obj [("error", .str "rate limited")]))
        = { status := 429, body := genericErrorBody } :=
  ⟨by decide, by decide,
   routeGET_non200 429 (.obj [("error", .str "rate limited")]) (by decide) (by decide)⟩

/-- Claim C3: when the outbound call throws before a status is usable
(the fetch rejects, or `res.json()` throws while parsing the response),
the handler returns the numeric status 500 — the catch block's string
`"500"` is normalized by the `Response` constructor — with the generic
body. -/
theorem routeGET_thrown_500 (s : Nat) :
    routeGET .fetchThrow = { status := 500, body := genericErrorBody }
    ∧ routeGET (.jsonThrow s) = { status := 500, body := genericErrorBody } :=
  ⟨rfl, rfl⟩

/-- Claim C4: noninterference of the credential with the response — two
runs differing only in `OPENAI_API_KEY` but seeing the same upstream
outcome return identical responses (the key flows only into the outbound
`Authorization` header of `routeRun`). -/
theorem routeRun_response_key_noninterference (k₁ k₂ : String) (o : CallOutcome) :
    (routeRun k₁ o).response = (routeRun k₂ o).response := rfl

/-- Claim C5: when the client's call to the proxy endpoint fails to
complete (the fetch throws, or reading/parsing the response throws),
`reply` is set to exactly `"An error has occurred"`. -/
theorem onSubmit_call_failure (s : Nat) :
    onSubmit .fetchThrow
      = { reply := .str "An error has occurred", loadingStatus := false }
    ∧ onSubmit (.jsonThrow s)
      = { reply := .str "An error has occurred", loadingStatus := false } :=
  ⟨rfl, rfl⟩

/-- Claim C6: when the proxy endpoint responds with status 200 and a
JSON body containing a `completion` field, `reply` is set to exactly
that field's value, embedded line breaks preserved. -/
theorem onSubmit_success (fs : List (String × JSVal)) (v : JSVal)
    (h : fs.lookup "completion" = some v) :
    onSubmit (.ok 200 (.obj fs)) = { reply := v, loadingStatus := false } := by
  simp [onSubmit, chosenReply, getProp, h]

/-- Witness for C6, Scenario C: a `200 { completion: "A\nB\nC" }`
response sets `reply` to the multi-line string unchanged. -/
theorem onSubmit_success_witness :
    ([("completion", JSVal.str "A\nB\nC")].lookup "completion"
        = some (JSVal.str "A\nB\nC"))
    ∧ onSubmit (.ok 200 (.obj [("completion", JSVal.str "A\nB\nC")]))
        = { reply := JSVal.str "A\nB\nC", loadingStatus := false } :=
  ⟨rfl, onSubmit_success [("completion", JSVal.str "A\nB\nC")] (JSVal.str "A\nB\nC") rfl⟩

/-- Claim C7: when the proxy endpoint responds with a non-200 status and
a parseable JSON body carrying the nested error message field
`body.error.message`, `reply` is set to that field's value. -/
theorem onSubmit_upstream_error (s : Nat) (fs gs : List (String × JSVal)) (m : JSVal)
    (hs : s ≠ 200)
    (he : fs.lookup "error" = some (.obj gs))
    (hm : gs.lookup "message" = some m) :
    onSubmit (.ok s (.obj fs)) = { reply := m, loadingStatus := false } := by
  simp [onSubmit, chosenReply, getProp, hs, he, hm]

/-- Witness for C7: a 429 response with body
`{ error: { message: "An error has occurred" } }` sets `reply` to the
nested message. -/
theorem onSubmit_upstream_error_witness :
    ((429 : Nat) ≠ 200)
    ∧ onSubmit (.ok 429 (.obj [("error", .obj [("message", .str "An error has occurred")])]))
        = { reply := .str "An error has occurred", loadingStatus := false } :=
  ⟨by decide,
   onSubmit_upstream_error 429 [("error", .obj [("message", .str "An error has occurred")])]
     [("message", .str "An error has occurred")] (.str "An error has occurred")
     (by decide) rfl rfl⟩

/-- Claim C8: however the client's call settles — success, upstream
error, or thrown transport/parsing failure — `onSubmit` terminates with
`loadingStatus = false`. -/
theorem onSubmit_loading_false (o : CallOutcome) :
    (onSubmit o).loadingStatus = false := by
  cases o with
  | fetchThrow => rfl
  | jsonThrow s => rfl
  | ok s body =>
    unfold onSubmit
    cases hcr : chosenReply s body <;> simp [hcr]

/-- Counterexample to claim C9: a 200 body whose
`choices[0].message.content` is present and whose usage token counters
are all absent (the `usage` object is empty, so each dereference yields
`undefined` without throwing) makes the handler return 200 with the
completion — not 500 with the generic body as the claim states. -/
theorem routeGET_usage_counterexample :
    rawContent usageWithoutCounters = .ok (.str "Hi there!")
    ∧ getProp usageWithoutCounters "usage" = .ok (.obj [])
    ∧ getProp (.obj []) "prompt_tokens" = .ok .undefined
    ∧ getProp (.obj []) "completion_tokens" = .ok .undefined
    ∧ getProp (.obj []) "total_tokens" = .ok .undefined
    ∧ routeGET (.ok 200 usageWithoutCounters)
        = { status := 200, body := .obj [("completion", .str "Hi there!")] }
    ∧ (routeGET (.ok 200 usageWithoutCounters)).status ≠ 500 :=
  ⟨rfl, rfl, rfl, rfl, rfl, rfl, by decide⟩

/-- Claim C9 as amended: on a 200 body with extractable content, the
log line's dereference throws — and the handler answers 500 with the
generic body — exactly when the `usage` field itself is absent; when
`usage` is present as an object merely lacking the counters, the
dereferences yield `undefined` without throwing and the handler still
returns 200 with the trimmed completion. -/
theorem routeGET_usage_amended (c : String) (fs gs : List (String × JSVal))
    (hc : rawContent (.obj fs) = .ok (.str c)) :
    (fs.lookup "usage" = none →
      routeGET (.ok 200 (.obj fs)) = { status := 500, body := genericErrorBody })
    ∧ (fs.lookup "usage" = some (.obj gs) →
      routeGET (.ok 200 (.obj fs))
        = { status := 200, body := .obj [("completion", .str (jsTrim c))] }) := by
  have hext : extractCompletion (.obj fs) = Except.ok (jsTrim c) := by
    unfold extractCompletion
    rw [hc]
    rfl
  constructor
  · intro hu
    have hlog : logUsage (.obj fs) = Except.error () := by
      simp [logUsage, getProp, hu]
    simp [routeGET, hext, hlog, catchResponse_none]
  · intro hu
    have hlog : logUsage (.obj fs) = Except.ok () := by
      simp [logUsage, getProp, hu]
    simp [routeGET, hext, hlog]

/-- Witness for the amended C9 at concrete bodies: without a `usage`
field the handler answers 500 generic; with an empty `usage` object it
answers 200 with the completion. -/
theorem routeGET_usage_amended_witness :
    routeGET (.ok 200 successBodyNoUsage)
      = { status := 500, body := genericErrorBody }
    ∧ routeGET (.ok 200 usageWithoutCounters)
      = { status := 200, body := .obj [("completion", .str "Hi there!")] } :=
  ⟨(routeGET_usage_amended "Hi there!"
      [("choices", .arr [.obj [("message", .obj [("content", .str "Hi there!")])]])]
      [] rfl).1 rfl,
   (routeGET_usage_amended "Hi there!"
      [("choices", .arr [.obj [("message", .obj [("content", .str "Hi there!")])]]),
       ("usage", .obj [])]
      [] rfl).2 rfl⟩

/-- Counterexample to claim C10: a 404 response whose body's `error`
field is present but lacks `message` makes `body.error.message`
evaluate to `undefined` without throwing, so `reply` is set to
`undefined`, not to the fallback string the claim states. -/
theorem onSubmit_error_counterexample :
    errorWithoutMessage = .obj [("error", .obj [])]
    ∧ onSubmit (.ok 404 errorWithoutMessage)
        = { reply := .undefined, loadingStatus := false }
    ∧ (onSubmit (.ok 404 errorWithoutMessage)).reply ≠ .str "An error has occurred" :=
  ⟨rfl, rfl, fun h => JSVal.noConfusion h⟩

/-- Claim C10 as amended: on a non-200 response with a parseable JSON
body, when the `error` field is absent the access `body.error.message`
throws, is caught, and `reply` becomes the fallback string with
`loadingStatus` false; when `error` is present as an object merely
lacking `message`, no exception is raised and `reply` becomes
`undefined`, again with `loadingStatus` false. -/
theorem onSubmit_error_amended (s : Nat) (fs gs : List (String × JSVal))
    (hs : s ≠ 200) :
    (fs.lookup "error" = none →
      onSubmit (.ok s (.obj fs))
        = { reply := .str "An error has occurred", loadingStatus := false })
    ∧ (fs.lookup "error" = some (.obj gs) → gs.lookup "message" = none →
      onSubmit (.ok s (.obj fs)) = { reply := .undefined, loadingStatus := false }) := by
  constructor
  · intro he
    simp [onSubmit, chosenReply, getProp, hs, he]
  · intro he hm
    simp [onSubmit, chosenReply, getProp, hs, he, hm]

/-- Witness for the amended C10 at concrete inputs: a 404 with body
`{}` yields the fallback reply; a 404 with body `{ error: {} }` yields
an `undefined` reply; both end with `loadingStatus` false. -/
theorem onSubmit_error_amended_witness :
    onSubmit (.ok 404 (.obj []))
      = { reply := .str "An error has occurred", loadingStatus := false }
    ∧ onSubmit (.ok 404 errorWithoutMessage)
      = { reply := .undefined, loadingStatus := false } :=
  ⟨(onSubmit_error_amended 404 [] [] (by decide)).1 rfl,
   (onSubmit_error_amended 404 [("error", .obj [])] [] (by decide)).2 rfl rfl⟩

end HelloGptNotes
